import Mathlib

/-!
Shallow embedding of the queue-polling / autoscaling supervisor of
`internal/poller/interface.go` (package `poller`).

Modelling conventions:
* Wall-clock times are integers (seconds); `time.Minute` becomes the
  constant `minuteD = 60`.  Each entry point receives the value returned
  by `time.Now()` as an explicit `now` parameter; the handful of
  `time.Now()` calls inside one mutex-protected critical section are
  identified (the Go monotonic clock moves by nanoseconds between them,
  and no comparison in the code can distinguish them).
* `float64` statistics (`sumBatchPct`) are modelled exactly as rationals;
  the batch fill increment `float64(len(batch.Messages)) / 10.0` becomes
  `(n : Rat) / 10`.
* Go `int64` counters are modelled as `Int`; no claim depends on 64-bit
  wrap-around behaviour.
* Pointer identity of `*queueInfo` (used by `slices.Index`) is modelled
  by a numeric `id` field; the `uuid.NewString()` queue id is identified
  with it.  Fresh descriptors take their ids from an explicit supply.
* `ecdsa.GenerateKey` may fail, making `createQueueInfo` return `nil`;
  key generation outcomes are an explicit boolean oracle.
* Coordinator RPC outcomes, context cancellation and drain-channel
  observations are explicit per-attempt oracles; calls made by the code
  (RPCs, backoff `Backoff()`/`Recover()`, goroutine spawns) are recorded
  in an event trace.
* Unbounded retry loops (`createQueue`) take a fuel argument; running out
  of fuel models "the Go loop is still running", in which case deferred
  statements have not yet executed.
-/

namespace Plan42Poller

/-- The Go constant `time.Minute`, in seconds; wall-clock instants are
plain `Int` seconds (`time.Time` differences compare the same way in any
fixed unit). -/
def minuteD : Int := 60

/-- Go constant `maxRetries = 5` from interface.go. -/
def maxRetries : Nat := 5

/-- Model of `queueInfo`: per-queue descriptor.  `id` stands both for the
pointer identity used by `slices.Index` and for the generated `queueID`.
`ctxCancelled` models `qi.ctx.Err() != nil`, `drainClosed` models the
`drain` channel having been closed. -/
structure QueueInfo where
  id : Nat
  ctxCancelled : Bool
  drainClosed : Bool
  draining : Bool
  skipDelete : Bool
  deriving DecidableEq, Repr

/-- Model of `createQueueInfo`'s successful result: a fresh descriptor
with open drain channel, live context and clear flags. -/
def newQueueInfo (fid : Nat) : QueueInfo :=
  { id := fid, ctxCancelled := false, drainClosed := false
    draining := false, skipDelete := false }

/-- Model of `createQueueInfo`: key generation may fail, in which case the
Go function logs and returns `nil`. -/
def createQueueInfo (keyOk : Bool) (fid : Nat) : Option QueueInfo :=
  if keyOk then some (newQueueInfo fid) else none

/-- Observable calls made by the poller: coordinator RPCs, backoff
transitions on the two `concurrency.Backoff` instances, goroutine spawns,
drain signals, scaler-context cancellation and the final task wait. -/
inductive Event where
  | registerRunnerQueue (qid : Nat)
  | getRunnerQueue (qid : Nat)
  | updateRunnerQueue (qid : Nat) (version : Int) (draining isHealthy : Bool)
  | deleteRunnerQueue (qid : Nat) (version : Int)
  | backoffQM
  | recoverQM
  | backoffBatch
  | recoverBatch
  | dispatch (msg : Nat)
  | spawnWorker (qid : Nat)
  | drainSignalled (qid : Nat)
  | cancelScale
  | waitTasks
  deriving DecidableEq, Repr

/-- Mutable supervisor state of `Poller` that the claims mention: the
workers list, the expected/actual counters, the scale dwell clock, the
batch-fill statistics window, and the scaler-context cancellation flag. -/
structure PollerState where
  queues : List QueueInfo
  nExpectedQueueCount : Int
  nActualQueueCount : Int
  lastScaleEvent : Int
  sumBatchPct : Rat
  nBatches : Int
  measureStart : Int
  scaleCancelled : Bool
  deriving DecidableEq, Repr

/-- Model of `Poller.resetStats`: restart the measurement window. -/
def resetStats (st : PollerState) (now : Int) : PollerState :=
  { st with measureStart := now, nBatches := 0, sumBatchPct := 0 }

/-- Model of `Poller.addStats`: accumulate one batch-fill sample. -/
def addStats (st : PollerState) (pct : Rat) : PollerState :=
  { st with sumBatchPct := st.sumBatchPct + pct, nBatches := st.nBatches + 1 }

/-- Model of `Poller.increaseActualQueueCount`. -/
def increaseActualQueueCount (st : PollerState) (now : Int) : PollerState :=
  let st := { st with nActualQueueCount := st.nActualQueueCount + 1 }
  if st.nActualQueueCount = st.nExpectedQueueCount then
    { st with lastScaleEvent := now }
  else st

/-- Model of `Poller.decreaseActualQueueCount`. -/
def decreaseActualQueueCount (st : PollerState) (now : Int) : PollerState :=
  let st := { st with nActualQueueCount := st.nActualQueueCount - 1 }
  if st.nActualQueueCount = st.nExpectedQueueCount then
    { st with lastScaleEvent := now }
  else st

/-- Model of `Poller.signalDrain` acting on a descriptor: close the drain
channel and set `draining`, idempotently. -/
def signalDrainQi (qi : QueueInfo) : QueueInfo :=
  if qi.draining then qi else { qi with drainClosed := true, draining := true }

/-- Loop body of `Poller.scaleUp`: for each index in `ids`, attempt key
generation; on success increment `nExpectedQueueCount`, append the fresh
descriptor and spawn a worker goroutine on it; on failure `continue`. -/
def scaleUpLoop (keyOk : Nat → Bool) (fb : Nat) :
    PollerState → List Nat → PollerState × List Event
  | st, [] => (st, [])
  | st, i :: rest =>
    match createQueueInfo (keyOk i) (fb + i) with
    | none => scaleUpLoop keyOk fb st rest
    | some qi =>
      let st := { st with nExpectedQueueCount := st.nExpectedQueueCount + 1
                          queues := st.queues ++ [qi] }
      let r := scaleUpLoop keyOk fb st rest
      (r.1, Event.spawnWorker qi.id :: r.2)

/-- Model of `Poller.scaleUp`: reset stats, then add `len(queues)` new
workers (skipping any whose key generation fails), then update
`lastScaleEvent` when the expected count has already quiesced. -/
def scaleUp (st : PollerState) (now : Int) (keyOk : Nat → Bool) (fb : Nat) :
    PollerState × List Event :=
  let st := resetStats st now
  let r := scaleUpLoop keyOk fb st (List.range st.queues.length)
  (if r.1.nExpectedQueueCount = r.1.nActualQueueCount then
    ({ r.1 with lastScaleEvent := now }, r.2)
   else (r.1, r.2))

/-- Model of `Poller.scaleDown`: reset stats; at one worker only record a
scale event; otherwise drop the last descriptor, decrement the expected
count and signal drain on the removed descriptor. -/
def scaleDown (st : PollerState) (now : Int) : PollerState × List Event :=
  let st := resetStats st now
  if st.queues.length = 1 then
    ({ st with lastScaleEvent := now }, [])
  else
    match st.queues.getLast? with
    | none => (st, [])
    | some last =>
      ({ st with nExpectedQueueCount := st.nExpectedQueueCount - 1
                 queues := st.queues.dropLast },
       [Event.drainSignalled last.id])

/-- Model of `Poller.doScale`: the 1-second autoscaler tick body, run
under the supervisor mutex.  The guard order is exactly the Go source's:
quiescence, 1-minute warmup, 1-minute dwell, zero-sample check, scale-up
test, 2-minute warmup, 2-minute dwell, scale-down test, steady state. -/
def doScale (st : PollerState) (now : Int) (keyOk : Nat → Bool) (fb : Nat) :
    PollerState × List Event :=
  if st.nExpectedQueueCount ≠ st.nActualQueueCount then (st, [])
  else if now - st.measureStart < minuteD then (st, [])
  else if now - st.lastScaleEvent < minuteD then (st, [])
  else if st.nBatches = 0 then (st, [])
  else if st.sumBatchPct / (st.nBatches : Rat) ≥ 0.8 then scaleUp st now keyOk fb
  else if now - st.measureStart < 2 * minuteD then (st, [])
  else if now - st.lastScaleEvent < 2 * minuteD then (resetStats st now, [])
  else if st.sumBatchPct / (st.nBatches : Rat) ≤ 0.4 then scaleDown st now
  else (resetStats st now, [])

/-- Model of `Poller.drainAll`: under the mutex, reset stats, zero the
expected count, signal drain on every live descriptor and clear the
workers list.  Returns the new state and the drained descriptors (as the
worker goroutines, which alias them, observe them). -/
def drainAll (st : PollerState) (now : Int) : PollerState × List QueueInfo :=
  let st := resetStats st now
  let st := { st with nExpectedQueueCount := 0 }
  let drained := st.queues.map signalDrainQi
  ({ st with queues := [] }, drained)

/-- Result of `Poller.ShutdownContext`: final supervisor state, the
descriptors that were drain-signalled, and the trailing effects (cancel
the scaler context, then wait for the context group bounded by the
caller's context). -/
structure ShutdownOut where
  st : PollerState
  drained : List QueueInfo
  events : List Event
  deriving DecidableEq, Repr

/-- Model of `Poller.ShutdownContext`: `drainAll()`, then `cancelScale()`,
then `cg.WaitContext(ctx)`. -/
def ShutdownContext (st : PollerState) (now : Int) : ShutdownOut :=
  let r := drainAll st now
  { st := { r.1 with scaleCancelled := true }
    drained := r.2
    events := [Event.cancelScale, Event.waitTasks] }

/-- Model of `Poller.handleQueueNotFound`: set `skipDelete` on the ghost
descriptor; then, under the mutex, skip replacement during draining,
cancellation or shutdown; otherwise remove the descriptor from the
workers list (by pointer identity, `slices.Index`), decrement the
expected count, and — if key generation for the replacement succeeds —
append a fresh descriptor, re-increment the expected count and spawn a
worker goroutine on it.  Returns the new supervisor state, the mutated
ghost descriptor, and the spawned-goroutine trace. -/
def handleQueueNotFound (st : PollerState) (qi : QueueInfo)
    (keyOk : Bool) (fid : Nat) : PollerState × QueueInfo × List Event :=
  if qi.draining = true ∨ qi.ctxCancelled = true ∨ st.nExpectedQueueCount = 0 then
    (st, { qi with skipDelete := true }, [])
  else
    match st.queues.findIdx? (fun q => q.id == qi.id) with
    | none => (st, { qi with skipDelete := true }, [])
    | some idx =>
      match createQueueInfo keyOk fid with
      | none =>
        ({ st with nExpectedQueueCount := st.nExpectedQueueCount - 1
                   queues := st.queues.eraseIdx idx },
         { qi with skipDelete := true }, [])
      | some repl =>
        ({ st with nExpectedQueueCount := st.nExpectedQueueCount - 1 + 1
                   queues := st.queues.eraseIdx idx ++ [repl] },
         { qi with skipDelete := true }, [Event.spawnWorker repl.id])

/-- Outcome of one `GetMessagesBatch` long-poll: a successful batch (the
message list), a `http.StatusNotFound` HTTP error, or any other error. -/
inductive BatchResult where
  | ok (messages : List Nat)
  | notFound
  | otherError
  deriving DecidableEq, Repr

/-- Oracle inputs consumed by one `doPoll` call: whether
`batchBackoff.WaitContext(qi.ctx)` succeeded, the `GetMessagesBatch`
outcome, and the key-generation outcome and fresh id used by
`handleQueueNotFound` if it runs. -/
structure DoPollIn where
  waitOk : Bool
  batch : BatchResult
  keyOk : Bool
  fid : Nat
  deriving Repr

/-- Result of one `doPoll` call: new supervisor state, the (possibly
mutated) descriptor, the returned pair `(n, stop)` and the event trace. -/
structure DoPollOut where
  st : PollerState
  qi : QueueInfo
  n : Nat
  stop : Bool
  events : List Event
  deriving Repr

/-- Model of `Poller.doPoll`: wait on the batch backoff (a failed wait
stops the worker); on NotFound run `handleQueueNotFound` and stop; on any
other error back off; on a successful batch back off when empty or
recover when non-empty, add one fill-stat sample of `len/10`, and spawn a
`processMessage` goroutine per message. -/
def doPoll (st : PollerState) (qi : QueueInfo) (inp : DoPollIn) : DoPollOut :=
  if inp.waitOk = false then ⟨st, qi, 0, true, []⟩
  else
    match inp.batch with
    | .notFound =>
      let r := handleQueueNotFound st qi inp.keyOk inp.fid
      ⟨r.1, r.2.1, 0, true, r.2.2⟩
    | .otherError => ⟨st, qi, 0, false, [Event.backoffBatch]⟩
    | .ok msgs =>
      let evs := (if msgs.length = 0 then [Event.backoffBatch] else [Event.recoverBatch])
                   ++ msgs.map Event.dispatch
      ⟨addStats st ((msgs.length : Rat) / 10), qi, msgs.length, false, evs⟩

/-- Coordinator-held queue record, of which only the optimistic
concurrency version matters to the core. -/
structure RunnerQueue where
  version : Int
  deriving DecidableEq, Repr

/-- Outcome of a versioned coordinator call (`UpdateRunnerQueue` or
`DeleteRunnerQueue`): success, a `ConflictError` carrying
`conflictErr.Current` (which may fail the `*p42.RunnerQueue` type
assertion, hence an `Option`), or any other error. -/
inductive OpOutcome where
  | ok
  | conflict (current : Option RunnerQueue)
  | err
  deriving DecidableEq, Repr

/-- Oracle for one attempt of a queue-management retry loop
(`markAsDraining` / `deleteQueue`): whether
`queueManagementBackoff.WaitContext` succeeded, the `GetRunnerQueue`
result (when issued), and the versioned RPC outcome. -/
structure QMAttempt where
  waitOk : Bool
  getRes : Option RunnerQueue
  opRes : OpOutcome
  deriving Repr

/-- Retry loop of `Poller.markAsDraining`, recursing on the remaining
attempts (`maxRetries` minus those used); `i` indexes the oracle and
`cached` is the locally cached server record (Go variable `queue`). -/
def markAsDrainingAux (qid : Nat) (oracle : Nat → QMAttempt) :
    Nat → Nat → Option RunnerQueue → List Event
  | _, 0, _ => []
  | i, fuel + 1, cached =>
    let a := oracle i
    if a.waitOk = false then []
    else
      let pre : List Event :=
        match cached with
        | none => [Event.getRunnerQueue qid]
        | some _ => []
      let fetched : Option RunnerQueue :=
        match cached with
        | none => a.getRes
        | some q => some q
      match fetched with
      | none => pre ++ Event.backoffQM :: markAsDrainingAux qid oracle (i + 1) fuel none
      | some q =>
        let ev := Event.updateRunnerQueue qid q.version true false
        match a.opRes with
        | .ok => pre ++ [ev, Event.recoverQM]
        | .conflict c =>
          pre ++ ev :: Event.backoffQM :: markAsDrainingAux qid oracle (i + 1) fuel c
        | .err =>
          pre ++ ev :: Event.backoffQM :: markAsDrainingAux qid oracle (i + 1) fuel (some q)

/-- Model of `Poller.markAsDraining`: up to `maxRetries` attempts, each
gated by a queue-management backoff wait; fetch the record when not
cached; send `UpdateRunnerQueue` with `draining=true, isHealthy=false`
and the cached version; a Conflict replaces the cache with the server's
record; any failed attempt (Conflict included) calls `Backoff()`;
success calls `Recover()` and returns. -/
def markAsDraining (qid : Nat) (oracle : Nat → QMAttempt) : List Event :=
  markAsDrainingAux qid oracle 0 maxRetries none

/-- Retry loop of `Poller.deleteQueue`, structured exactly like
`markAsDrainingAux` but issuing `DeleteRunnerQueue`. -/
def deleteQueueAux (qid : Nat) (oracle : Nat → QMAttempt) :
    Nat → Nat → Option RunnerQueue → List Event
  | _, 0, _ => []
  | i, fuel + 1, cached =>
    let a := oracle i
    if a.waitOk = false then []
    else
      let pre : List Event :=
        match cached with
        | none => [Event.getRunnerQueue qid]
        | some _ => []
      let fetched : Option RunnerQueue :=
        match cached with
        | none => a.getRes
        | some q => some q
      match fetched with
      | none => pre ++ Event.backoffQM :: deleteQueueAux qid oracle (i + 1) fuel none
      | some q =>
        let ev := Event.deleteRunnerQueue qid q.version
        match a.opRes with
        | .ok => pre ++ [ev, Event.recoverQM]
        | .conflict c =>
          pre ++ ev :: Event.backoffQM :: deleteQueueAux qid oracle (i + 1) fuel c
        | .err =>
          pre ++ ev :: Event.backoffQM :: deleteQueueAux qid oracle (i + 1) fuel (some q)

/-- Model of `Poller.deleteQueue`. -/
def deleteQueue (qid : Nat) (oracle : Nat → QMAttempt) : List Event :=
  deleteQueueAux qid oracle 0 maxRetries none

/-- Model of `Poller.deleteQueueIfNeeded`: a descriptor whose
`skipDelete` flag is set issues no coordinator call at all. -/
def deleteQueueIfNeeded (qi : QueueInfo) (oracle : Nat → QMAttempt) : List Event :=
  if qi.skipDelete then [] else deleteQueue qi.id oracle

/-- Outcome of one `RegisterRunnerQueue` RPC. -/
inductive RegResult where
  | ok
  | conflict
  | err
  deriving DecidableEq, Repr

/-- Oracle for one iteration of `createQueue`'s retry loop: the `select`
observations (`qi.ctx.Done()`, `qi.drain`), the backoff wait outcome and
the registration RPC outcome. -/
structure CreateAttempt where
  ctxDone : Bool
  drainFired : Bool
  waitOk : Bool
  reg : RegResult
  deriving Repr

/-- How `createQueue` returned: registration succeeded, registration hit
a Conflict (queue already exists — treated as success), the context was
cancelled, the drain signal fired before creation, the backoff wait
failed, or the loop is still running (fuel exhausted in the model). -/
inductive CreateOutcome where
  | registered
  | conflictExisting
  | canceled
  | drainAbort
  | waitFailed
  | stillLooping
  deriving DecidableEq, Repr

/-- Retry loop of `Poller.createQueue`.  The loop in Go is unbounded, so
the model takes fuel; exhausted fuel means the Go loop has not returned
(and its deferred statements have not run). -/
def createQueueAux (qid : Nat) (oracle : Nat → CreateAttempt) :
    Nat → Nat → CreateOutcome × List Event
  | _, 0 => (.stillLooping, [])
  | i, fuel + 1 =>
    let a := oracle i
    if a.ctxDone then (.canceled, [])
    else if a.drainFired then (.drainAbort, [])
    else if a.waitOk = false then (.waitFailed, [])
    else
      match a.reg with
      | .conflict => (.conflictExisting, [Event.registerRunnerQueue qid])
      | .ok => (.registered, [Event.registerRunnerQueue qid, Event.recoverQM])
      | .err =>
        let r := createQueueAux qid oracle (i + 1) fuel
        (r.1, Event.registerRunnerQueue qid :: Event.backoffQM :: r.2)

/-- Model of `Poller.createQueue`: run the registration retry loop; the
deferred `increaseActualQueueCount()` executes on every return of the
function, whatever the outcome — success, Conflict, cancellation, drain
abort or wait failure. -/
def createQueue (st : PollerState) (now : Int) (qid : Nat)
    (oracle : Nat → CreateAttempt) (fuel : Nat) :
    PollerState × CreateOutcome × List Event :=
  let r := createQueueAux qid oracle 0 fuel
  if r.1 = .stillLooping then (st, r.1, r.2)
  else (increaseActualQueueCount st now, r.1, r.2)

/-! Concrete sample inputs used by witness theorems. -/

/-- Sample supervisor state with two live workers, quiesced counters and
an empty measurement window. -/
def stTwo : PollerState :=
  { queues := [newQueueInfo 0, newQueueInfo 1], nExpectedQueueCount := 2
    nActualQueueCount := 2, lastScaleEvent := 0, sumBatchPct := 0
    nBatches := 0, measureStart := 0, scaleCancelled := false }

/-- Sample supervisor state with one live worker and a hot measurement
window (mean fill 9/10 over 10 batches). -/
def stOne : PollerState :=
  { queues := [newQueueInfo 0], nExpectedQueueCount := 1
    nActualQueueCount := 1, lastScaleEvent := 0, sumBatchPct := 9
    nBatches := 10, measureStart := 0, scaleCancelled := false }

/-- Queue-management oracle on which every attempt's RPC fails with a
plain (non-Conflict) error. -/
def qmAllErr : Nat → QMAttempt :=
  fun _ => { waitOk := true, getRes := none, opRes := .err }

/-- The S5 scenario oracle: `GetRunnerQueue` succeeds at version 1, the
first two `UpdateRunnerQueue` calls fail with Conflict carrying the
server records at versions 2 and 3, and the third succeeds.  No attempt
fails with a non-Conflict error. -/
def s5Oracle : Nat → QMAttempt
  | 0 => { waitOk := true, getRes := some ⟨1⟩, opRes := .conflict (some ⟨2⟩) }
  | 1 => { waitOk := true, getRes := none, opRes := .conflict (some ⟨3⟩) }
  | _ => { waitOk := true, getRes := none, opRes := .ok }

/-- Create-loop oracle whose context is already cancelled at the first
iteration. -/
def createCancelled : Nat → CreateAttempt :=
  fun _ => { ctxDone := true, drainFired := false, waitOk := true, reg := .err }

/-- Create-loop oracle on which registration succeeds immediately. -/
def createOk : Nat → CreateAttempt :=
  fun _ => { ctxDone := false, drainFired := false, waitOk := true, reg := .ok }

/-! Helper lemmas. -/

/-- A fresh descriptor carries the id it was created with. -/
theorem newQueueInfo_id (fid : Nat) : (newQueueInfo fid).id = fid := rfl

/-- Signalling drain preserves the descriptor identity. -/
theorem signalDrainQi_id (qi : QueueInfo) : (signalDrainQi qi).id = qi.id := by
  unfold signalDrainQi
  split <;> rfl

/-- After signalling drain the descriptor is draining. -/
theorem signalDrainQi_draining (qi : QueueInfo) :
    (signalDrainQi qi).draining = true := by
  unfold signalDrainQi
  split <;> simp_all

/-- Replacement of a missing queue never touches the batch-fill
statistics or the actual-count field. -/
theorem handleQueueNotFound_frame (st : PollerState) (qi : QueueInfo)
    (k : Bool) (fid : Nat) :
    (handleQueueNotFound st qi k fid).1.nBatches = st.nBatches ∧
    (handleQueueNotFound st qi k fid).1.sumBatchPct = st.sumBatchPct ∧
    (handleQueueNotFound st qi k fid).1.nActualQueueCount = st.nActualQueueCount ∧
    (handleQueueNotFound st qi k fid).1.measureStart = st.measureStart := by
  cases k <;>
    · unfold handleQueueNotFound createQueueInfo
      split
      · exact ⟨rfl, rfl, rfl, rfl⟩
      · split <;> simp

/-- Replacement of a missing queue always sets `skipDelete` on the ghost
descriptor, and its only trace entries are goroutine spawns. -/
theorem handleQueueNotFound_ghost (st : PollerState) (qi : QueueInfo)
    (k : Bool) (fid : Nat) :
    (handleQueueNotFound st qi k fid).2.1.skipDelete = true ∧
    ∀ e ∈ (handleQueueNotFound st qi k fid).2.2, ∃ q, e = Event.spawnWorker q := by
  cases k <;>
    · unfold handleQueueNotFound createQueueInfo
      split
      · exact ⟨rfl, by simp⟩
      · split <;> simp [newQueueInfo]

/-- C4: the autoscaler never reduces the worker count below 1.  With one
live worker `scaleDown` leaves the queues list and the expected count
unchanged, signals nothing, and records the attempt in `lastScaleEvent`;
with more than one worker it removes exactly the last descriptor and
decrements the expected count by exactly one, leaving at least one
worker. -/
theorem scaleDown_never_below_one (st : PollerState) (now : Int) :
    (st.queues.length = 1 →
      (scaleDown st now).1.queues = st.queues ∧
      (scaleDown st now).1.nExpectedQueueCount = st.nExpectedQueueCount ∧
      (scaleDown st now).1.lastScaleEvent = now ∧
      (scaleDown st now).2 = []) ∧
    (1 < st.queues.length →
      (scaleDown st now).1.queues = st.queues.dropLast ∧
      (scaleDown st now).1.queues.length = st.queues.length - 1 ∧
      1 ≤ (scaleDown st now).1.queues.length ∧
      (scaleDown st now).1.nExpectedQueueCount = st.nExpectedQueueCount - 1) := by
  constructor
  · intro h
    simp [scaleDown, resetStats, h]
  · intro h
    have hne : st.queues ≠ [] := by
      intro he
      rw [he] at h
      simp at h
    obtain ⟨last, hl⟩ := Option.isSome_iff_exists.mp (List.getLast?_isSome.mpr hne)
    have h1 : ¬ st.queues.length = 1 := by omega
    refine ⟨?_, ?_, ?_, ?_⟩ <;>
      · simp [scaleDown, resetStats, h1, hl, List.length_dropLast]
        try omega

/-- C4 witness: the two branches of `scaleDown_never_below_one`
instantiated at the one-worker state `stOne` and the two-worker state
`stTwo`. -/
theorem scaleDown_never_below_one_witness :
    ((scaleDown stOne 9).1.queues = stOne.queues ∧
      (scaleDown stOne 9).1.nExpectedQueueCount = stOne.nExpectedQueueCount ∧
      (scaleDown stOne 9).1.lastScaleEvent = 9 ∧
      (scaleDown stOne 9).2 = []) ∧
    ((scaleDown stTwo 9).1.queues = stTwo.queues.dropLast ∧
      (scaleDown stTwo 9).1.queues.length = stTwo.queues.length - 1 ∧
      1 ≤ (scaleDown stTwo 9).1.queues.length ∧
      (scaleDown stTwo 9).1.nExpectedQueueCount = stTwo.nExpectedQueueCount - 1) :=
  ⟨(scaleDown_never_below_one stOne 9).1 rfl,
   (scaleDown_never_below_one stTwo 9).2 (by decide)⟩

/-- C5: each of the four early guards of `doScale` — unquiesced counters,
less than a minute of measurement data, less than a minute since the last
scale event, or zero batch samples — leaves the whole poller state
unchanged and performs no action. -/
theorem doScale_guard_noop (st : PollerState) (now : Int)
    (keyOk : Nat → Bool) (fb : Nat)
    (h : st.nExpectedQueueCount ≠ st.nActualQueueCount ∨
         now - st.measureStart < minuteD ∨
         now - st.lastScaleEvent < minuteD ∨
         st.nBatches = 0) :
    doScale st now keyOk fb = (st, []) := by
  unfold doScale
  split_ifs with h1 h2 h3 h4 h5 h6 h7 h8 <;>
    first
      | rfl
      | (exfalso
         rcases h with h | h | h | h <;> simp_all)

/-- C5 witness: `doScale` at `stTwo` with `now = 0` (inside the one-minute
warmup window) changes nothing. -/
theorem doScale_guard_noop_witness :
    doScale stTwo 0 (fun _ => true) 3 = (stTwo, []) :=
  doScale_guard_noop stTwo 0 (fun _ => true) 3 (Or.inr (Or.inl (by decide)))

/-- C6: a `doPoll` whose `GetMessagesBatch` succeeds — whatever the phase
of the worker passing `qi` — adds exactly one fill sample: `nBatches`
grows by exactly 1 and `sumBatchPct` by `len(batch)/10`, for every batch
size including zero; a `doPoll` whose long poll fails (NotFound or other
error) or whose backoff wait fails adds no sample. -/
theorem doPoll_fill_accounting (st : PollerState) (qi : QueueInfo) (inp : DoPollIn) :
    (∀ msgs, inp.waitOk = true → inp.batch = BatchResult.ok msgs →
      (doPoll st qi inp).st.nBatches = st.nBatches + 1 ∧
      (doPoll st qi inp).st.sumBatchPct
          = st.sumBatchPct + (msgs.length : Rat) / 10) ∧
    (inp.batch = BatchResult.notFound ∨ inp.batch = BatchResult.otherError ∨
        inp.waitOk = false →
      (doPoll st qi inp).st.nBatches = st.nBatches ∧
      (doPoll st qi inp).st.sumBatchPct = st.sumBatchPct) := by
  constructor
  · intro msgs hw hb
    simp [doPoll, hw, hb, addStats]
  · intro h
    by_cases hw : inp.waitOk = false
    · simp [doPoll, hw]
    · have hw' : inp.waitOk = true := by
        revert hw
        cases inp.waitOk <;> simp
      rcases h with hb | hb | hb
      · have hf := handleQueueNotFound_frame st qi inp.keyOk inp.fid
        simp only [doPoll, hw', hb]
        simp only [Bool.true_eq_false, if_false]
        exact ⟨hf.1, hf.2.1⟩
      · simp [doPoll, hw', hb]
      · rw [hb] at hw'
        cases hw'

/-- C6 witness: `doPoll_fill_accounting` applied to a successful batch of
three messages and to a NotFound poll, at the state `stTwo`. -/
theorem doPoll_fill_accounting_witness :
    ((doPoll stTwo (newQueueInfo 0) ⟨true, BatchResult.ok [4, 5, 6], true, 7⟩).st.nBatches
        = stTwo.nBatches + 1 ∧
      (doPoll stTwo (newQueueInfo 0) ⟨true, BatchResult.ok [4, 5, 6], true, 7⟩).st.sumBatchPct
        = stTwo.sumBatchPct + (([4, 5, 6] : List Nat).length : Rat) / 10) ∧
    ((doPoll stTwo (newQueueInfo 0) ⟨true, BatchResult.notFound, true, 7⟩).st.nBatches
        = stTwo.nBatches ∧
      (doPoll stTwo (newQueueInfo 0) ⟨true, BatchResult.notFound, true, 7⟩).st.sumBatchPct
        = stTwo.sumBatchPct) :=
  ⟨(doPoll_fill_accounting stTwo (newQueueInfo 0) ⟨true, BatchResult.ok [4, 5, 6], true, 7⟩).1
      [4, 5, 6] rfl rfl,
   (doPoll_fill_accounting stTwo (newQueueInfo 0) ⟨true, BatchResult.notFound, true, 7⟩).2
      (Or.inl rfl)⟩

/-- C7: after a successful `GetMessagesBatch`, an empty batch calls
`batchBackoff.Backoff()` and a non-empty batch calls
`batchBackoff.Recover()` (and never `Backoff()`); a `GetMessagesBatch`
error other than NotFound calls `batchBackoff.Backoff()` and dispatches
no message. -/
theorem doPoll_backoff_discipline (st : PollerState) (qi : QueueInfo) (inp : DoPollIn) :
    (∀ msgs, inp.waitOk = true → inp.batch = BatchResult.ok msgs → msgs = [] →
      (doPoll st qi inp).events = [Event.backoffBatch]) ∧
    (∀ msgs, inp.waitOk = true → inp.batch = BatchResult.ok msgs → msgs ≠ [] →
      Event.recoverBatch ∈ (doPoll st qi inp).events ∧
      Event.backoffBatch ∉ (doPoll st qi inp).events) ∧
    (inp.waitOk = true → inp.batch = BatchResult.otherError →
      (doPoll st qi inp).events = [Event.backoffBatch] ∧
      ∀ m, Event.dispatch m ∉ (doPoll st qi inp).events) := by
  refine ⟨?_, ?_, ?_⟩
  · intro msgs hw hb he
    simp [doPoll, hw, hb, he]
  · intro msgs hw hb hne
    have hlen : ¬ msgs.length = 0 := by
      simpa [List.length_eq_zero] using hne
    simp [doPoll, hw, hb, hlen]
  · intro hw hb
    simp [doPoll, hw, hb]

/-- C7 witness: `doPoll_backoff_discipline` applied to an empty batch, a
batch of two messages and a failing poll, at the state `stTwo`. -/
theorem doPoll_backoff_discipline_witness :
    (doPoll stTwo (newQueueInfo 0) ⟨true, BatchResult.ok [], true, 7⟩).events
        = [Event.backoffBatch] ∧
    Event.recoverBatch
        ∈ (doPoll stTwo (newQueueInfo 0) ⟨true, BatchResult.ok [4, 5], true, 7⟩).events ∧
    (doPoll stTwo (newQueueInfo 0) ⟨true, BatchResult.otherError, true, 7⟩).events
        = [Event.backoffBatch] :=
  ⟨(doPoll_backoff_discipline stTwo (newQueueInfo 0) ⟨true, BatchResult.ok [], true, 7⟩).1
      [] rfl rfl rfl,
   ((doPoll_backoff_discipline stTwo (newQueueInfo 0) ⟨true, BatchResult.ok [4, 5], true, 7⟩).2.1
      [4, 5] rfl rfl (by decide)).1,
   ((doPoll_backoff_discipline stTwo (newQueueInfo 0) ⟨true, BatchResult.otherError, true, 7⟩).2.2
      rfl rfl).1⟩

/-- C10: `ShutdownContext` first performs, under the supervisor mutex,
the state change that zeroes `nExpectedQueueCount`, signals drain on
every descriptor of the workers list, clears that list and resets the
fill statistics; it then cancels the scaler context and waits for all
spawned tasks (the trailing event trace). -/
theorem ShutdownContext_postcondition (st : PollerState) (now : Int) :
    (ShutdownContext st now).st.nExpectedQueueCount = 0 ∧
    (ShutdownContext st now).st.queues = [] ∧
    (ShutdownContext st now).st.nBatches = 0 ∧
    (ShutdownContext st now).st.sumBatchPct = 0 ∧
    (ShutdownContext st now).st.measureStart = now ∧
    (ShutdownContext st now).st.scaleCancelled = true ∧
    (ShutdownContext st now).drained.map QueueInfo.id = st.queues.map QueueInfo.id ∧
    (∀ qi ∈ (ShutdownContext st now).drained, qi.draining = true) ∧
    (ShutdownContext st now).events = [Event.cancelScale, Event.waitTasks] := by
  unfold ShutdownContext drainAll resetStats
  refine ⟨rfl, rfl, rfl, rfl, rfl, rfl, ?_, ?_, rfl⟩
  · simp [List.map_map, Function.comp, signalDrainQi_id]
  · intro qi hqi
    simp only [List.mem_map] at hqi
    obtain ⟨q, _, rfl⟩ := hqi
    exact signalDrainQi_draining q

/-- C1: when `handleQueueNotFound` runs for a non-draining worker whose
context is live, while `nExpectedQueueCount ≠ 0`, and the ghost
descriptor is present in the workers list and key generation for the
replacement succeeds, the expected count is unchanged, the old
descriptor is removed, one freshly generated descriptor is appended in
its place, a worker goroutine is spawned on it, and `skipDelete` is set
on the ghost. -/
theorem handleQueueNotFound_replacement (st : PollerState) (qi : QueueInfo)
    (fid : Nat) (idx : Nat)
    (hd : qi.draining = false) (hc : qi.ctxCancelled = false)
    (hn : st.nExpectedQueueCount ≠ 0)
    (hidx : st.queues.findIdx? (fun q => q.id == qi.id) = some idx) :
    (handleQueueNotFound st qi true fid).1.nExpectedQueueCount
        = st.nExpectedQueueCount ∧
    (handleQueueNotFound st qi true fid).1.queues
        = st.queues.eraseIdx idx ++ [newQueueInfo fid] ∧
    (handleQueueNotFound st qi true fid).2.1.skipDelete = true ∧
    (handleQueueNotFound st qi true fid).2.2 = [Event.spawnWorker fid] := by
  refine ⟨?_, ?_, ?_, ?_⟩ <;>
    simp [handleQueueNotFound, createQueueInfo, hd, hc, hn, hidx, newQueueInfo]

/-- C1 witness: a two-worker state whose first worker's queue vanished
server-side; the replacement gets the fresh id 7. -/
theorem handleQueueNotFound_replacement_witness :
    (handleQueueNotFound stTwo (newQueueInfo 0) true 7).1.nExpectedQueueCount
        = stTwo.nExpectedQueueCount ∧
    (handleQueueNotFound stTwo (newQueueInfo 0) true 7).1.queues
        = stTwo.queues.eraseIdx 0 ++ [newQueueInfo 7] ∧
    (handleQueueNotFound stTwo (newQueueInfo 0) true 7).2.1.skipDelete = true ∧
    (handleQueueNotFound stTwo (newQueueInfo 0) true 7).2.2
        = [Event.spawnWorker 7] :=
  handleQueueNotFound_replacement stTwo (newQueueInfo 0) 7 0 rfl rfl
    (by decide) (by decide)

/-- C2: a `doPoll` whose `GetMessagesBatch` returns NotFound sets
`skipDelete` on the descriptor and stops the polling loop; its own trace
contains no `DeleteRunnerQueue` call, and the worker's deferred
`deleteQueueIfNeeded` on that descriptor issues no call at all, whatever
the coordinator would answer. -/
theorem doPoll_notFound_no_delete (st : PollerState) (qi : QueueInfo)
    (inp : DoPollIn) (delOracle : Nat → QMAttempt)
    (hw : inp.waitOk = true) (hb : inp.batch = BatchResult.notFound) :
    (doPoll st qi inp).stop = true ∧
    (doPoll st qi inp).qi.skipDelete = true ∧
    (∀ q v, Event.deleteRunnerQueue q v ∉ (doPoll st qi inp).events) ∧
    deleteQueueIfNeeded (doPoll st qi inp).qi delOracle = [] := by
  have hg := handleQueueNotFound_ghost st qi inp.keyOk inp.fid
  have hqi : (doPoll st qi inp).qi
      = (handleQueueNotFound st qi inp.keyOk inp.fid).2.1 := by
    simp [doPoll, hw, hb]
  have hev : (doPoll st qi inp).events
      = (handleQueueNotFound st qi inp.keyOk inp.fid).2.2 := by
    simp [doPoll, hw, hb]
  have hsd : (doPoll st qi inp).qi.skipDelete = true := by
    rw [hqi]
    exact hg.1
  refine ⟨by simp [doPoll, hw, hb], hsd, ?_, ?_⟩
  · intro q v hmem
    rw [hev] at hmem
    obtain ⟨q', hq'⟩ := hg.2 _ hmem
    simp at hq'
  · simp [deleteQueueIfNeeded, hsd]

/-- C2 witness: the NotFound poll at `stTwo`, with a delete oracle that
would answer every call. -/
theorem doPoll_notFound_no_delete_witness :
    (doPoll stTwo (newQueueInfo 0) ⟨true, BatchResult.notFound, true, 7⟩).stop = true ∧
    (doPoll stTwo (newQueueInfo 0) ⟨true, BatchResult.notFound, true, 7⟩).qi.skipDelete
        = true ∧
    deleteQueueIfNeeded
        (doPoll stTwo (newQueueInfo 0) ⟨true, BatchResult.notFound, true, 7⟩).qi
        qmAllErr = [] :=
  ⟨(doPoll_notFound_no_delete stTwo (newQueueInfo 0)
      ⟨true, BatchResult.notFound, true, 7⟩ qmAllErr rfl rfl).1,
   (doPoll_notFound_no_delete stTwo (newQueueInfo 0)
      ⟨true, BatchResult.notFound, true, 7⟩ qmAllErr rfl rfl).2.1,
   (doPoll_notFound_no_delete stTwo (newQueueInfo 0)
      ⟨true, BatchResult.notFound, true, 7⟩ qmAllErr rfl rfl).2.2.2⟩

/-- Scale-up loop with every key generation succeeding: appends one fresh
descriptor per id, increments the expected count accordingly, spawns one
worker per id and leaves every other state field unchanged. -/
theorem scaleUpLoop_all_ok (keyOk : Nat → Bool) (fb : Nat)
    (hk : ∀ i, keyOk i = true) :
    ∀ (ids : List Nat) (st : PollerState),
      (scaleUpLoop keyOk fb st ids).1.queues
          = st.queues ++ ids.map (fun i => newQueueInfo (fb + i)) ∧
      (scaleUpLoop keyOk fb st ids).1.nExpectedQueueCount
          = st.nExpectedQueueCount + ids.length ∧
      (scaleUpLoop keyOk fb st ids).1.nActualQueueCount = st.nActualQueueCount ∧
      (scaleUpLoop keyOk fb st ids).1.nBatches = st.nBatches ∧
      (scaleUpLoop keyOk fb st ids).1.sumBatchPct = st.sumBatchPct ∧
      (scaleUpLoop keyOk fb st ids).1.measureStart = st.measureStart ∧
      (scaleUpLoop keyOk fb st ids).1.lastScaleEvent = st.lastScaleEvent ∧
      (scaleUpLoop keyOk fb st ids).2
          = ids.map (fun i => Event.spawnWorker (fb + i)) := by
  intro ids
  induction ids with
  | nil =>
    intro st
    simp [scaleUpLoop]
  | cons i rest ih =>
    intro st
    obtain ⟨q1, q2, q3, q4, q5, q6, q7, q8⟩ :=
      ih { st with nExpectedQueueCount := st.nExpectedQueueCount + 1
                   queues := st.queues ++ [newQueueInfo (fb + i)] }
    refine ⟨?_, ?_, ?_, ?_, ?_, ?_, ?_, ?_⟩
    · simp only [scaleUpLoop, createQueueInfo, hk i, if_true, q1, List.map_cons]
      simp
    · simp only [scaleUpLoop, createQueueInfo, hk i, if_true, q2, List.length_cons]
      push_cast
      ring
    · simp only [scaleUpLoop, createQueueInfo, hk i, if_true, q3]
    · simp only [scaleUpLoop, createQueueInfo, hk i, if_true, q4]
    · simp only [scaleUpLoop, createQueueInfo, hk i, if_true, q5]
    · simp only [scaleUpLoop, createQueueInfo, hk i, if_true, q6]
    · simp only [scaleUpLoop, createQueueInfo, hk i, if_true, q7]
    · simp only [scaleUpLoop, createQueueInfo, hk i, if_true, newQueueInfo_id,
                 q8, List.map_cons]

/-- C3: one `doScale` tick with quiesced counters, a one-minute warm
measurement window, a one-minute dwell, at least one sample and a mean
fill of at least 0.8 doubles the worker count: it spawns `len(queues)`
new workers, raises `nExpectedQueueCount` by the old `len(queues)`, and
resets the fill statistics (all key generations assumed to succeed). -/
theorem doScale_scale_up_doubles (st : PollerState) (now : Int)
    (keyOk : Nat → Bool) (fb : Nat)
    (hq : st.nExpectedQueueCount = st.nActualQueueCount)
    (hm : minuteD ≤ now - st.measureStart)
    (hl : minuteD ≤ now - st.lastScaleEvent)
    (hb : st.nBatches ≠ 0)
    (hfill : (0.8 : Rat) ≤ st.sumBatchPct / (st.nBatches : Rat))
    (hk : ∀ i, keyOk i = true) :
    (doScale st now keyOk fb).1.queues.length = 2 * st.queues.length ∧
    (doScale st now keyOk fb).1.nExpectedQueueCount
        = st.nExpectedQueueCount + st.queues.length ∧
    (doScale st now keyOk fb).2
        = (List.range st.queues.length).map (fun i => Event.spawnWorker (fb + i)) ∧
    (doScale st now keyOk fb).1.nBatches = 0 ∧
    (doScale st now keyOk fb).1.sumBatchPct = 0 ∧
    (doScale st now keyOk fb).1.measureStart = now := by
  have hstep : doScale st now keyOk fb = scaleUp st now keyOk fb := by
    have g1 : ¬ st.nExpectedQueueCount ≠ st.nActualQueueCount := by omega
    have g2 : ¬ now - st.measureStart < minuteD := by
      simp only [minuteD] at hm ⊢
      omega
    have g3 : ¬ now - st.lastScaleEvent < minuteD := by
      simp only [minuteD] at hl ⊢
      omega
    simp only [doScale, g1, g2, g3, hb, if_false, ge_iff_le, hfill, if_true,
               ite_false, ite_true]
  obtain ⟨q1, q2, q3, q4, q5, q6, q7, q8⟩ :=
    scaleUpLoop_all_ok keyOk fb hk
      (List.range (resetStats st now).queues.length) (resetStats st now)
  simp only [resetStats, List.length_range] at q1 q2 q3 q4 q5 q6 q7 q8
  rw [hstep]
  simp only [scaleUp, resetStats, List.length_range]
  refine ⟨?_, ?_, ?_, ?_, ?_, ?_⟩
  · split <;>
      · simp only [q1, List.length_append, List.length_map, List.length_range]
        omega
  · split <;> simp only [q2]
  · split <;> simp only [q8]
  · split <;> simp only [q4]
  · split <;> simp only [q5]
  · split <;> simp only [q6]

/-- The sample state `stOne` has a mean batch fill of 9/10, above the
scale-up threshold. -/
theorem stOne_fill : (0.8 : Rat) ≤ stOne.sumBatchPct / (stOne.nBatches : Rat) := by
  norm_num [stOne]

/-- C3 witness: `doScale_scale_up_doubles` applied at the hot one-worker
state `stOne`, two minutes into the window, with fresh ids from 5. -/
theorem doScale_scale_up_doubles_witness :
    (doScale stOne 120 (fun _ => true) 5).1.queues.length
        = 2 * stOne.queues.length ∧
    (doScale stOne 120 (fun _ => true) 5).1.nExpectedQueueCount
        = stOne.nExpectedQueueCount + stOne.queues.length ∧
    (doScale stOne 120 (fun _ => true) 5).2
        = (List.range stOne.queues.length).map (fun i => Event.spawnWorker (5 + i)) ∧
    (doScale stOne 120 (fun _ => true) 5).1.nBatches = 0 ∧
    (doScale stOne 120 (fun _ => true) 5).1.sumBatchPct = 0 ∧
    (doScale stOne 120 (fun _ => true) 5).1.measureStart = 120 :=
  doScale_scale_up_doubles stOne 120 (fun _ => true) 5 rfl (by decide) (by decide)
    (by decide) stOne_fill (fun _ => rfl)

/-- C8 counterexample: on the S5 oracle — whose only failures are
Conflicts — `markAsDraining` still calls `queueManagementBackoff.Backoff()`
after each Conflict (two `backoffQM` events), refuting the claim that only
non-Conflict errors call `Backoff()`.  The trace also shows the Conflict
refresh (versions 1, 2, 3 in turn), the three `UpdateRunnerQueue` calls
with `draining=true, isHealthy=false`, and the final `Recover()`. -/
theorem markAsDraining_conflict_backoff_cex :
    markAsDraining 0 s5Oracle
      = [Event.getRunnerQueue 0,
         Event.updateRunnerQueue 0 1 true false, Event.backoffQM,
         Event.updateRunnerQueue 0 2 true false, Event.backoffQM,
         Event.updateRunnerQueue 0 3 true false, Event.recoverQM] ∧
    (markAsDraining 0 s5Oracle).count Event.backoffQM = 2 := by
  decide

/-- C8 (amended): `markAsDraining` makes at most 5 attempts, each gated
by a queue-management backoff wait; it sends `UpdateRunnerQueue` with
`draining=true`, `isHealthy=false` and the cached version; a Conflict
replaces the cached record with the server's record carried in the error
and retries, calling `Backoff()` exactly as any other failed attempt
does; success calls `Recover()` and returns — so two Conflicts followed
by a success yield exactly three `UpdateRunnerQueue` calls at the three
successive cached versions. -/
theorem markAsDraining_conflict_retry (qid : Nat) (oracle : Nat → QMAttempt)
    (v0 v1 v2 : Int)
    (h0w : (oracle 0).waitOk = true)
    (h0g : (oracle 0).getRes = some ⟨v0⟩)
    (h0u : (oracle 0).opRes = OpOutcome.conflict (some ⟨v1⟩))
    (h1w : (oracle 1).waitOk = true)
    (h1u : (oracle 1).opRes = OpOutcome.conflict (some ⟨v2⟩))
    (h2w : (oracle 2).waitOk = true)
    (h2u : (oracle 2).opRes = OpOutcome.ok) :
    markAsDraining qid oracle
      = [Event.getRunnerQueue qid,
         Event.updateRunnerQueue qid v0 true false, Event.backoffQM,
         Event.updateRunnerQueue qid v1 true false, Event.backoffQM,
         Event.updateRunnerQueue qid v2 true false, Event.recoverQM] := by
  simp [markAsDraining, maxRetries, markAsDrainingAux,
        h0w, h0g, h0u, h1w, h1u, h2w, h2u]

/-- C8 witness: `markAsDraining_conflict_retry` applied to the S5 oracle
with versions 1, 2, 3. -/
theorem markAsDraining_conflict_retry_witness :
    markAsDraining 4 s5Oracle
      = [Event.getRunnerQueue 4,
         Event.updateRunnerQueue 4 1 true false, Event.backoffQM,
         Event.updateRunnerQueue 4 2 true false, Event.backoffQM,
         Event.updateRunnerQueue 4 3 true false, Event.recoverQM] :=
  markAsDraining_conflict_retry 4 s5Oracle 1 2 3 rfl rfl rfl rfl rfl rfl rfl

/-- C9 counterexample: a worker whose context is already cancelled before
registration ever succeeds still increments `nActualQueueCount` — the
increment is a deferred statement of `createQueue` and runs on the abort
path too, refuting the claim that the abort happens without it. -/
theorem createQueue_abort_increments_cex :
    (createQueue stTwo 5 0 createCancelled 1).2.1 = CreateOutcome.canceled ∧
    (createQueue stTwo 5 0 createCancelled 1).1.nActualQueueCount
        = stTwo.nActualQueueCount + 1 := by
  decide

/-- C9 (amended): `nActualQueueCount` is incremented exactly once on every
return of `createQueue` — registration success, Conflict (treated as
success), context cancellation, pre-creation drain and failed backoff
wait alike; the worker's deferred decrement on exit then restores the
counter, so an aborted worker leaves `nActualQueueCount` net unchanged. -/
theorem createQueue_counter_balance (st : PollerState) (now now2 : Int)
    (qid : Nat) (oracle : Nat → CreateAttempt) (fuel : Nat)
    (h : (createQueueAux qid oracle 0 fuel).1 ≠ CreateOutcome.stillLooping) :
    (createQueue st now qid oracle fuel).1.nActualQueueCount
        = st.nActualQueueCount + 1 ∧
    (decreaseActualQueueCount (createQueue st now qid oracle fuel).1
        now2).nActualQueueCount = st.nActualQueueCount := by
  unfold createQueue
  rw [if_neg h]
  simp only [increaseActualQueueCount, decreaseActualQueueCount]
  constructor
  · split <;> rfl
  · split <;> split <;> simp

/-- C9 witness: `createQueue_counter_balance` on an immediately successful
registration at `stTwo`. -/
theorem createQueue_counter_balance_witness :
    (createQueue stTwo 5 0 createOk 1).1.nActualQueueCount
        = stTwo.nActualQueueCount + 1 ∧
    (decreaseActualQueueCount (createQueue stTwo 5 0 createOk 1).1
        9).nActualQueueCount = stTwo.nActualQueueCount :=
  createQueue_counter_balance stTwo 5 9 0 createOk 1 (by decide)

end Plan42Poller
